import Mathlib

set_option allowUnsafeReducibility true in
attribute [semireducible] Rat.add Rat.mul Rat.inv Rat.sub

namespace BookRec

/-! Shallow embedding of the hybrid book recommendation engine from
`streamlit/book_rec_app.py` (function `recommend`) and its checkpoint
variant `streamlit/.ipynb_checkpoints/book_rec_app-checkpoint.py`
(the inline scoring, sorting and filtering pipeline).

Modelling conventions: Python floats are exact rationals; a pandas
dataframe is a list of records indexed by position; a numpy similarity
matrix is a list of rows of rationals; fallible Python code (raised
exceptions) is an `Except` value. -/

/-- Regular expression abstract syntax. `pandas.Series.str.contains`
defaults to `regex=True`, so the query string reaching
`df["title"].str.contains(q)` is compiled by Python `re`. This models the
subset of `re` patterns relevant to the app: literal characters, the
any-character dot, grouping parentheses, alternation, and the `*`, `+`,
`?` quantifiers. `nul` is the empty language (used by derivatives). -/
inductive Re where
  | nul : Re
  | eps : Re
  | ch (c : Char) : Re
  | dot : Re
  | cat (r s : Re) : Re
  | alt (r s : Re) : Re
  | star (r : Re) : Re
deriving Repr, DecidableEq

/-- Does the regular expression accept the empty string? -/
def nullable : Re → Bool
  | .nul => false
  | .eps => true
  | .ch _ => false
  | .dot => false
  | .cat r s => nullable r && nullable s
  | .alt r s => nullable r || nullable s
  | .star _ => true

/-- Brzozowski derivative of a regular expression by one character. -/
def deriv : Re → Char → Re
  | .nul, _ => .nul
  | .eps, _ => .nul
  | .ch c, a => if a = c then .eps else .nul
  | .dot, _ => .eps
  | .cat r s, a =>
      if nullable r then .alt (.cat (deriv r a) s) (deriv s a)
      else .cat (deriv r a) s
  | .alt r s, a => .alt (deriv r a) (deriv s a)
  | .star r, a => .cat (deriv r a) (.star r)

/-- Does some prefix of the character list match the regular expression? -/
def matchesFrom (r : Re) : List Char → Bool
  | [] => nullable r
  | c :: cs => nullable r || matchesFrom (deriv r c) cs

/-- Boolean semantics of Python `re.search`: does any substring of the
character list match the regular expression? -/
def reSearch (r : Re) : List Char → Bool
  | [] => nullable r
  | c :: cs => matchesFrom r (c :: cs) || reSearch r cs

/-- After one quantifier Python accepts a lazy `?` marker but rejects a
second quantifier with a `multiple repeat` error. A lazy quantifier
accepts the same language as the greedy one, so for the boolean search
semantics the marker leaves the expression unchanged. -/
def quantNoMore (r : Re) (s : List Char) : Except String (Re × List Char) :=
  match s with
  | '*' :: _ => .error "multiple repeat"
  | '+' :: _ => .error "multiple repeat"
  | '?' :: _ => .error "multiple repeat"
  | rest => pure (r, rest)

/-- Handle the optional lazy marker and reject stacked quantifiers, as
Python `re` does. -/
def quantTail (r : Re) (s : List Char) : Except String (Re × List Char) :=
  match s with
  | '?' :: rest => quantNoMore r rest
  | '*' :: _ => .error "multiple repeat"
  | '+' :: _ => .error "multiple repeat"
  | rest => pure (r, rest)

/-- Grammar level of the recursive-descent pattern compiler: alternation,
concatenation, quantified atom, atom. -/
inductive PLevel where
  | palt : PLevel
  | pseq : PLevel
  | prep : PLevel
  | patom : PLevel
deriving Repr, DecidableEq

/-- Recursive-descent pattern compiler modelling Python `re.compile` on
the supported subset, written as one function over a grammar level so
recursion is structural on the fuel (always sufficient when the fuel
exceeds four times the pattern length). At the atom level, a quantifier
with nothing before it and an unterminated group raise the same errors
Python `re` raises; character classes and escapes are outside the
modelled subset and are rejected conservatively. `e+` is encoded as
`e·e*` and `e?` as `e|ε`. -/
def parseF : Nat → PLevel → List Char → Except String (Re × List Char)
  | 0, _, _ => .error "pattern too deeply nested"
  | fuel + 1, .palt, s => do
    let (r, rest) ← parseF fuel .pseq s
    match rest with
    | '|' :: rest2 => do
      let (r2, rest3) ← parseF fuel .palt rest2
      pure (.alt r r2, rest3)
    | _ => pure (r, rest)
  | fuel + 1, .pseq, s =>
    match s with
    | [] => pure (.eps, [])
    | ')' :: _ => pure (.eps, s)
    | '|' :: _ => pure (.eps, s)
    | _ => do
      let (r, rest) ← parseF fuel .prep s
      let (r2, rest2) ← parseF fuel .pseq rest
      pure (.cat r r2, rest2)
  | fuel + 1, .prep, s => do
    let (r, rest) ← parseF fuel .patom s
    match rest with
    | '*' :: rest2 => quantTail (.star r) rest2
    | '+' :: rest2 => quantTail (.cat r (.star r)) rest2
    | '?' :: rest2 => quantTail (.alt r .eps) rest2
    | _ => pure (r, rest)
  | fuel + 1, .patom, s =>
    match s with
    | [] => .error "nothing to repeat"
    | '(' :: rest => do
      let (r, rest2) ← parseF fuel .palt rest
      match rest2 with
      | ')' :: rest3 => pure (r, rest3)
      | _ => .error "missing ), unterminated subpattern"
    | '.' :: rest => pure (.dot, rest)
    | '*' :: _ => .error "nothing to repeat"
    | '+' :: _ => .error "nothing to repeat"
    | '?' :: _ => .error "nothing to repeat"
    | '[' :: _ => .error "character classes not supported in this model"
    | '\\' :: _ => .error "escapes not supported in this model"
    | c :: rest => pure (.ch c, rest)

/-- Compile a pattern, modelling Python `re.compile` on the supported
subset: leftover input can only be a stray `)`, which Python reports as
an unbalanced parenthesis. -/
def parseRegex (p : List Char) : Except String Re :=
  match parseF (4 * p.length + 8) .palt p with
  | .error e => .error e
  | .ok (r, []) => .ok r
  | .ok (_, _ :: _) => .error "unbalanced parenthesis"

/-- ASCII lower-casing of one character, the fragment of Python
`str.lower` relevant to the app's titles and queries. -/
def lowerChar (c : Char) : Char :=
  if 65 ≤ c.toNat ∧ c.toNat ≤ 90 then Char.ofNat (c.toNat + 32) else c

/-- Lower-casing of a character list (`s.lower()` on ASCII text). -/
def lowerStr (l : List Char) : List Char := l.map lowerChar

/-- Whitespace test for the modelled fragment of Python `str.strip`. -/
def isSpaceCh (c : Char) : Bool :=
  c == ' ' || c == '\t' || c == '\n' || c == '\r'

/-- Strip leading and trailing whitespace (`s.strip()`). -/
def trimChars (l : List Char) : List Char :=
  ((l.dropWhile isSpaceCh).reverse.dropWhile isSpaceCh).reverse

/-- Literal (non-regex) prefix test on character lists, used only to state
that regex matching differs from literal substring containment. -/
def leadingMatch : List Char → List Char → Bool
  | [], _ => true
  | _ :: _, [] => false
  | c :: cs, d :: ds => c == d && leadingMatch cs ds

/-- Literal (non-regex) substring containment on character lists. -/
def substringOf (needle : List Char) : List Char → Bool
  | [] => leadingMatch needle []
  | d :: ds => leadingMatch needle (d :: ds) || substringOf needle ds

/-- One dataframe row, with the columns the app reads: display metadata,
the cluster label, and the one-hot genre columns (an association list from
genre column name to its 0/1 flag). -/
structure Item where
  title : String
  author : String
  avg_rating : ℚ
  rating_count : Nat
  year_published : Int
  all_genres : String
  cluster : Int
  genre_flags : List (String × Nat)
deriving Repr, DecidableEq

/-- Default row used for out-of-range positional reads. -/
def dItem : Item :=
  { title := "", author := "", avg_rating := 0, rating_count := 0,
    year_published := 0, all_genres := "", cluster := 0, genre_flags := [] }

/-- Value of a one-hot genre column for a row (`df.loc[idx, g]`). -/
def flagOf (it : Item) (g : String) : Nat :=
  ((it.genre_flags.lookup g).getD 0)

/-- Row `i` of a similarity matrix (`m[i]` in numpy). -/
def mrow (m : List (List ℚ)) (i : Nat) : List ℚ := m.getD i []

/-- Entry `(i, j)` of a similarity matrix. -/
def mentry (m : List (List ℚ)) (i j : Nat) : ℚ := (mrow m i).getD j 0

/-- Errors the `recommend` call can raise: an invalid regex reaching
`str.contains` (Python `re.error`) and the float division by zero during
weight normalization when all five weights are zero. -/
inductive RecError where
  | regexError (msg : String) : RecError
  | zeroDivisionError : RecError
deriving Repr, DecidableEq

/-- Normal return values of `recommend`: the not-found message string, or
the recommended rows, identified by their stable dataframe indices in
ranked order. -/
inductive RecOutput where
  | message (s : String) : RecOutput
  | result (idxs : List Nat) : RecOutput
deriving Repr, DecidableEq

deriving instance DecidableEq for Except

/-- The single-quote character, used to build the not-found message. -/
def quoteCh : String := String.mk [Char.ofNat 39]

/-- The message `recommend` returns when no title matches the query. -/
def noBooksMsg (query : String) : String :=
  "No books found for " ++ quoteCh ++ query ++ quoteCh ++ ". Try another keyword."

/-- Indices of rows whose lower-cased title the compiled query matches
(`df[df["title"].str.lower().str.contains(q)]`, regex semantics). -/
def matchIndices (r : Re) (df : List Item) : List Nat :=
  (List.range df.length).filter
    (fun i => reSearch r (lowerStr (df.getD i dItem).title.data))

/-- The resolver step of `recommend`: normalize the query
(`query.lower().strip()`), compile it, and return the first matching row
index (`matches.index[0]`), `none` when no row matches, or the regex
compile error. -/
def resolveIdx (query : String) (df : List Item) : Except RecError (Option Nat) :=
  match parseRegex (trimChars (lowerStr query.data)) with
  | .error e => .error (.regexError e)
  | .ok r => .ok (matchIndices r df).head?

/-- The cluster boost indicator for row `i`:
`(df["cluster"] == book_cluster).astype(int)`. -/
def clusterInd (df : List Item) (bookCluster : Int) (i : Nat) : ℚ :=
  if (df.getD i dItem).cluster = bookCluster then 1 else 0

/-- The hybrid score vector computed in steps 4 and 5 of `recommend` (and
in the checkpoint's `hybrid`): the weighted sum of the four similarity
rows at the anchor plus the cluster boost. -/
def hybridScores (df : List Item) (cos gen rat yr : List (List ℚ))
    (idx : Nat) (wt wg wr wy wc : ℚ) : List ℚ :=
  (List.range df.length).map (fun i =>
    (wt * mentry cos idx i + wg * mentry gen idx i +
     wr * mentry rat idx i + wy * mentry yr idx i)
    + wc * clusterInd df (df.getD idx dItem).cluster i)

/-- Ascending comparison on storage indices keyed by score, with ties in
ascending index order. `np.argsort` sorts ascending and is modelled as the
stable sort (numpy uses a stable insertion sort on small arrays, and the
spec-level model of argsort is the deterministic stable one). -/
def argRel (xs : List ℚ) (i j : Nat) : Prop :=
  xs.getD i 0 < xs.getD j 0 ∨ (xs.getD i 0 = xs.getD j 0 ∧ i ≤ j)

instance (xs : List ℚ) : DecidableRel (argRel xs) := fun i j => by
  unfold argRel; infer_instance

/-- `np.argsort(hybrid_score)`: the indices `0..n-1` sorted ascending by
score. -/
def argsortAsc (xs : List ℚ) : List Nat :=
  List.insertionSort (argRel xs) (List.range xs.length)

/-- The full `recommend` function of `streamlit/book_rec_app.py`: resolve
the query, normalize the weights (raising on an all-zero sum, as Python
float division by zero does), score, rank descending via the reversed
argsort, drop the anchor, and take the top `n` row indices. -/
def recommend (query : String) (df : List Item)
    (cosine_sim genre_sim rating_sim year_sim : List (List ℚ))
    (n : Nat) (w_title w_genre w_rating w_year w_cluster : ℚ) :
    Except RecError RecOutput :=
  match resolveIdx query df with
  | .error e => .error e
  | .ok none => .ok (.message (noBooksMsg query))
  | .ok (some idx) =>
    let wSum := w_title + w_genre + w_rating + w_year + w_cluster
    if wSum = 0 then .error .zeroDivisionError
    else
      let scores := hybridScores df cosine_sim genre_sim rating_sim year_sim idx
        (w_title / wSum) (w_genre / wSum) (w_rating / wSum)
        (w_year / wSum) (w_cluster / wSum)
      let ranked := (argsortAsc scores).reverse
      let kept := ranked.filter (fun i => i ≠ idx)
      .ok (.result (kept.take n))

/-- Descending comparison on `(index, score)` pairs with ties in ascending
index order: the order produced by the checkpoint's
`sorted(sim_scores, key=lambda x: x[1], reverse=True)`, since Python
`sorted` is stable and `enumerate` lists indices ascending. -/
def descRel (a b : Nat × ℚ) : Prop :=
  b.2 < a.2 ∨ (a.2 = b.2 ∧ a.1 ≤ b.1)

instance : DecidableRel descRel := fun a b => by
  unfold descRel; infer_instance

/-- The checkpoint's ranked score list:
`sorted(list(enumerate(hybrid)), key=lambda x: x[1], reverse=True)`. -/
def simScoresSorted (hybrid : List ℚ) : List (Nat × ℚ) :=
  List.insertionSort descRel hybrid.enum

/-- The survival test of the checkpoint's filter loop: not the selected
book, rating at least the minimum, and, when a genre filter is set, at
least one selected one-hot genre column equal to 1. -/
def keepItem (df : List Item) (selected : Nat) (minRating : ℚ)
    (genreFilter : List String) (i : Nat) : Bool :=
  !(i == selected) &&
  !(decide ((df.getD i dItem).avg_rating < minRating)) &&
  (genreFilter.isEmpty || genreFilter.any (fun g => flagOf (df.getD i dItem) g == 1))

/-- The checkpoint's collection loop over the ranked list: skip items that
fail the filters, append survivors, and break as soon as `N` items have
been collected (`if len(recs) >= N: break`). `cnt` is `len(recs)` so far. -/
def recsAux (keep : Nat × ℚ → Bool) (bigN : Nat) (cnt : Nat) :
    List (Nat × ℚ) → List (Nat × ℚ)
  | [] => []
  | x :: rest =>
    if keep x then
      if bigN ≤ cnt + 1 then [x] else x :: recsAux keep bigN (cnt + 1) rest
    else recsAux keep bigN cnt rest

/-- The checkpoint's `recs` list: traverse the full ranked order lazily,
filtering, until `N` survivors are collected or the ranking is
exhausted. -/
def recs (df : List Item) (selected : Nat) (minRating : ℚ)
    (genreFilter : List String) (bigN : Nat)
    (sortedScores : List (Nat × ℚ)) : List (Nat × ℚ) :=
  recsAux (fun x => keepItem df selected minRating genreFilter x.1) bigN 0 sortedScores

/-- The per-item composite score formula as the spec states it in §4.2,
written from the spec words (not from the code) for comparison with the
engine's computation. -/
def specScore (df : List Item) (cos gen rat yr : List (List ℚ))
    (a i : Nat) (wt wg wr wy wc : ℚ) : ℚ :=
  wt * mentry cos a i + wg * mentry gen a i + wr * mentry rat a i +
    wy * mentry yr a i +
    wc * (if (df.getD i dItem).cluster = (df.getD a dItem).cluster then 1 else 0)

/-! Concrete fixtures used by counterexamples and witnesses. -/

/-- One-row dataframe fixture. -/
def hobbitDf : List Item :=
  [{ dItem with title := "The Hobbit", avg_rating := 4 }]

/-- Three-row dataframe fixture; the anchor resolves to row 0. -/
def ceDf : List Item :=
  [{ dItem with title := "alpha" }, { dItem with title := "beta" },
   { dItem with title := "gamma" }]

/-- Title-similarity row fixture giving rows 1 and 2 exactly equal
scores. -/
def ceCos : List (List ℚ) := [[1, 1/2, 1/2]]

/-- All-zero similarity matrix fixture. -/
def ceZ : List (List ℚ) := [[0, 0, 0]]

/-- Three-row dataframe fixture with ratings and one-hot genre flags, for
the filter claims. -/
def gfDf : List Item :=
  [{ dItem with title := "alpha", avg_rating := 4, genre_flags := [("fiction", 1)] },
   { dItem with title := "beta", avg_rating := 3, genre_flags := [("fiction", 1)] },
   { dItem with title := "gamma", avg_rating := 5, genre_flags := [("poetry", 1)] }]

/-! Helper lemmas. -/

/-- Reading the hybrid score vector at a valid position yields the
five-term sum the code computes. -/
theorem hybridScores_getD (df : List Item) (cos gen rat yr : List (List ℚ))
    (idx : Nat) (wt wg wr wy wc : ℚ) (i : Nat) (hi : i < df.length) :
    (hybridScores df cos gen rat yr idx wt wg wr wy wc).getD i 0 =
      (wt * mentry cos idx i + wg * mentry gen idx i +
       wr * mentry rat idx i + wy * mentry yr idx i)
      + wc * clusterInd df (df.getD idx dItem).cluster i := by
  unfold hybridScores
  rw [List.getD_eq_getElem?_getD, List.getElem?_map, List.getElem?_range hi]
  rfl

instance argRelTotal (xs : List ℚ) : IsTotal Nat (argRel xs) := by
  constructor
  intro i j
  rcases lt_trichotomy (xs.getD i 0) (xs.getD j 0) with h | h | h
  · exact Or.inl (Or.inl h)
  · rcases Nat.le_total i j with hij | hij
    · exact Or.inl (Or.inr ⟨h, hij⟩)
    · exact Or.inr (Or.inr ⟨h.symm, hij⟩)
  · exact Or.inr (Or.inl h)

instance argRelTrans (xs : List ℚ) : IsTrans Nat (argRel xs) := by
  constructor
  intro a b c hab hbc
  rcases hab with h1 | ⟨e1, l1⟩ <;> rcases hbc with h2 | ⟨e2, l2⟩
  · exact Or.inl (h1.trans h2)
  · exact Or.inl (e2 ▸ h1)
  · exact Or.inl (e1 ▸ h2)
  · exact Or.inr ⟨e1.trans e2, l1.trans l2⟩

/-- In the reversed argsort order, whenever two listed indices carry equal
scores the later one is the smaller index: the reversal of a stable
ascending sort breaks ties by original index descending. -/
theorem ranked_tie_desc (xs : List ℚ) :
    ((argsortAsc xs).reverse).Pairwise
      (fun i j => xs.getD i 0 = xs.getD j 0 → j < i) := by
  have hs : List.Sorted (argRel xs) (argsortAsc xs) :=
    List.sorted_insertionSort (argRel xs) (List.range xs.length)
  have hnd : (argsortAsc xs).Nodup :=
    (List.perm_insertionSort (argRel xs) (List.range xs.length)).nodup_iff.mpr
      (List.nodup_range _)
  have hp : (argsortAsc xs).Pairwise (fun i j => argRel xs i j ∧ i ≠ j) :=
    List.Pairwise.and hs hnd
  rw [List.pairwise_reverse]
  refine hp.imp ?_
  rintro i j ⟨hr, hne⟩ heq
  rcases hr with hlt | ⟨_, hle⟩
  · exact absurd (heq ▸ hlt) (lt_irrefl _)
  · exact lt_of_le_of_ne hle hne

/-- The lazy collection loop equals taking the first `N - cnt` elements of
the filtered ranking, as long as the break bound has not been reached. -/
theorem recsAux_eq_take (keep : Nat × ℚ → Bool) (bigN : Nat) :
    ∀ (l : List (Nat × ℚ)) (cnt : Nat), cnt < bigN →
      recsAux keep bigN cnt l = (l.filter keep).take (bigN - cnt)
  | [], _, _ => by simp [recsAux]
  | x :: rest, cnt, h => by
    by_cases hk : keep x
    · rw [recsAux, if_pos hk, List.filter_cons_of_pos hk]
      by_cases hb : bigN ≤ cnt + 1
      · have h1 : bigN - cnt = 1 := by omega
        rw [if_pos hb, h1]
        simp
      · have h1 : bigN - cnt = (bigN - (cnt + 1)) + 1 := by omega
        rw [if_neg hb, recsAux_eq_take keep bigN rest (cnt + 1) (by omega), h1,
          List.take_succ_cons]
    · rw [recsAux, if_neg hk, List.filter_cons_of_neg hk,
        recsAux_eq_take keep bigN rest cnt h]

/-- Every element the collection loop returns passes the survival test. -/
theorem mem_recsAux_keep (keep : Nat × ℚ → Bool) (bigN : Nat) :
    ∀ (l : List (Nat × ℚ)) (cnt : Nat) (x : Nat × ℚ),
      x ∈ recsAux keep bigN cnt l → keep x = true
  | [], _, _, hx => by simp [recsAux] at hx
  | y :: rest, cnt, x, hx => by
    rw [recsAux] at hx
    by_cases hk : keep y
    · rw [if_pos hk] at hx
      by_cases hb : bigN ≤ cnt + 1
      · rw [if_pos hb] at hx
        simp only [List.mem_singleton] at hx
        exact hx ▸ hk
      · rw [if_neg hb] at hx
        rcases List.mem_cons.mp hx with h | h
        · exact h ▸ hk
        · exact mem_recsAux_keep keep bigN rest (cnt + 1) x h
    · rw [if_neg hk] at hx
      exact mem_recsAux_keep keep bigN rest cnt x hx

/-! The claims. -/

/-- C1: for a valid anchor `a` and item `i`, the composite score the
engine computes equals
`w_title*title[a][i] + w_genre*genre[a][i] + w_rating*rating[a][i] +
w_year*year[a][i] + w_cluster*(1 if cluster(i) == cluster(a) else 0)`
with the five per-call normalized weights; the cluster term contributes
the full normalized cluster weight exactly when the items share a cluster
label and zero otherwise. -/
theorem C1_composite_score_formula (df : List Item)
    (cos gen rat yr : List (List ℚ)) (a i : Nat) (wt wg wr wy wc : ℚ)
    (ha : a < df.length) (hi : i < df.length)
    (hw : wt + wg + wr + wy + wc ≠ 0) :
    (hybridScores df cos gen rat yr a
        (wt / (wt + wg + wr + wy + wc)) (wg / (wt + wg + wr + wy + wc))
        (wr / (wt + wg + wr + wy + wc)) (wy / (wt + wg + wr + wy + wc))
        (wc / (wt + wg + wr + wy + wc))).getD i 0 =
      specScore df cos gen rat yr a i
        (wt / (wt + wg + wr + wy + wc)) (wg / (wt + wg + wr + wy + wc))
        (wr / (wt + wg + wr + wy + wc)) (wy / (wt + wg + wr + wy + wc))
        (wc / (wt + wg + wr + wy + wc)) := by
  rw [hybridScores_getD df cos gen rat yr a _ _ _ _ _ i hi]
  unfold specScore clusterInd
  ring

/-- Witness for C1 at a concrete input. -/
theorem C1_composite_score_formula_witness :
    (hybridScores ceDf ceCos ceZ ceZ ceZ 0
        ((1 : ℚ) / (1 + 0 + 0 + 0 + 0)) (0 / (1 + 0 + 0 + 0 + 0))
        (0 / (1 + 0 + 0 + 0 + 0)) (0 / (1 + 0 + 0 + 0 + 0))
        (0 / (1 + 0 + 0 + 0 + 0))).getD 1 0 =
      specScore ceDf ceCos ceZ ceZ ceZ 0 1
        ((1 : ℚ) / (1 + 0 + 0 + 0 + 0)) (0 / (1 + 0 + 0 + 0 + 0))
        (0 / (1 + 0 + 0 + 0 + 0)) (0 / (1 + 0 + 0 + 0 + 0))
        (0 / (1 + 0 + 0 + 0 + 0)) :=
  C1_composite_score_formula ceDf ceCos ceZ ceZ ceZ 0 1 1 0 0 0 0
    (by decide) (by decide) (by decide)

/-- C8: under diagonal-one similarity matrices and non-negative weights
with positive sum, the anchor's own composite score (before exclusion)
equals the sum of the five normalized weights, exactly 1. -/
theorem C8_anchor_self_score_one (df : List Item)
    (cos gen rat yr : List (List ℚ)) (a : Nat) (wt wg wr wy wc : ℚ)
    (ha : a < df.length)
    (h1 : mentry cos a a = 1) (h2 : mentry gen a a = 1)
    (h3 : mentry rat a a = 1) (h4 : mentry yr a a = 1)
    (hnn : 0 ≤ wt ∧ 0 ≤ wg ∧ 0 ≤ wr ∧ 0 ≤ wy ∧ 0 ≤ wc)
    (hpos : 0 < wt + wg + wr + wy + wc) :
    (hybridScores df cos gen rat yr a
        (wt / (wt + wg + wr + wy + wc)) (wg / (wt + wg + wr + wy + wc))
        (wr / (wt + wg + wr + wy + wc)) (wy / (wt + wg + wr + wy + wc))
        (wc / (wt + wg + wr + wy + wc))).getD a 0 = 1 := by
  rw [hybridScores_getD df cos gen rat yr a _ _ _ _ _ a ha, h1, h2, h3, h4]
  unfold clusterInd
  rw [if_pos rfl]
  have hw : wt + wg + wr + wy + wc ≠ 0 := ne_of_gt hpos
  field_simp

/-- Witness for C8 at a concrete input. -/
theorem C8_anchor_self_score_one_witness :
    (hybridScores ceDf ceCos ceCos ceCos ceCos 0
        ((1 : ℚ) / (1 + 1 + 1 + 1 + 1)) ((1 : ℚ) / (1 + 1 + 1 + 1 + 1))
        ((1 : ℚ) / (1 + 1 + 1 + 1 + 1)) ((1 : ℚ) / (1 + 1 + 1 + 1 + 1))
        ((1 : ℚ) / (1 + 1 + 1 + 1 + 1))).getD 0 0 = 1 :=
  C8_anchor_self_score_one ceDf ceCos ceCos ceCos ceCos 0 1 1 1 1 1
    (by decide) (by decide) (by decide) (by decide) (by decide)
    (by norm_num) (by norm_num)

/-- C9: the engine is deterministic, a pure function of the query, the
dataframe, the four similarity matrices, `n` and the five weights: calls
with identical inputs produce identical outputs (and, being a function of
immutable values in this model, no input entity is mutated). -/
theorem C9_deterministic (q q' : String) (df df' : List Item)
    (cos cos' gen gen' rat rat' yr yr' : List (List ℚ)) (n n' : Nat)
    (wt wt' wg wg' wr wr' wy wy' wc wc' : ℚ)
    (hq : q = q') (hdf : df = df') (hcos : cos = cos') (hgen : gen = gen')
    (hrat : rat = rat') (hyr : yr = yr') (hn : n = n') (h1 : wt = wt')
    (h2 : wg = wg') (h3 : wr = wr') (h4 : wy = wy') (h5 : wc = wc') :
    recommend q df cos gen rat yr n wt wg wr wy wc
      = recommend q' df' cos' gen' rat' yr' n' wt' wg' wr' wy' wc' := by
  subst hq hdf hcos hgen hrat hyr hn h1 h2 h3 h4 h5
  rfl

/-- Witness for C9 at a concrete input. -/
theorem C9_deterministic_witness :
    recommend "alpha" ceDf ceCos ceZ ceZ ceZ 10 1 0 0 0 0
      = recommend "alpha" ceDf ceCos ceZ ceZ ceZ 10 1 0 0 0 0 :=
  C9_deterministic "alpha" "alpha" ceDf ceDf ceCos ceCos ceZ ceZ ceZ ceZ ceZ ceZ
    10 10 1 1 0 0 0 0 0 0 0 0 rfl rfl rfl rfl rfl rfl rfl rfl rfl rfl rfl rfl

/-- C2 counterexample: rows 1 and 2 have exactly equal composite scores
(the anchor is row 0 and only the title signal has weight), yet the
engine returns them as `[2, 1]` — the smaller original index comes
later, not earlier: `np.argsort` ascending followed by `[::-1]` puts
equal-score items in descending index order. -/
theorem C2_counterexample :
    (hybridScores ceDf ceCos ceZ ceZ ceZ 0 1 0 0 0 0).getD 1 0
      = (hybridScores ceDf ceCos ceZ ceZ ceZ 0 1 0 0 0 0).getD 2 0
    ∧ recommend "alpha" ceDf ceCos ceZ ceZ ceZ 10 1 0 0 0 0
      = .ok (.result [2, 1]) := by
  decide

/-- C2 amended: the ranking is deterministic, but ties are broken by
original storage index DESCENDING, not ascending: in every ranked output,
whenever two listed items have exactly equal composite scores the one
appearing earlier has the larger original index. -/
theorem C2_amended_tie_descending (q : String) (df : List Item)
    (cos gen rat yr : List (List ℚ)) (n : Nat) (wt wg wr wy wc : ℚ)
    (idx : Nat) (l : List Nat)
    (hres : resolveIdx q df = .ok (some idx))
    (hout : recommend q df cos gen rat yr n wt wg wr wy wc = .ok (.result l)) :
    l.Pairwise (fun i j =>
      (hybridScores df cos gen rat yr idx
          (wt / (wt + wg + wr + wy + wc)) (wg / (wt + wg + wr + wy + wc))
          (wr / (wt + wg + wr + wy + wc)) (wy / (wt + wg + wr + wy + wc))
          (wc / (wt + wg + wr + wy + wc))).getD i 0 =
      (hybridScores df cos gen rat yr idx
          (wt / (wt + wg + wr + wy + wc)) (wg / (wt + wg + wr + wy + wc))
          (wr / (wt + wg + wr + wy + wc)) (wy / (wt + wg + wr + wy + wc))
          (wc / (wt + wg + wr + wy + wc))).getD j 0 → j < i) := by
  unfold recommend at hout
  rw [hres] at hout
  dsimp only at hout
  by_cases hz : wt + wg + wr + wy + wc = 0
  · rw [if_pos hz] at hout
    cases hout
  · rw [if_neg hz] at hout
    simp only [Except.ok.injEq, RecOutput.result.injEq] at hout
    subst hout
    exact List.Pairwise.sublist
      ((List.take_sublist _ _).trans (List.filter_sublist _)) (ranked_tie_desc _)

/-- Witness for C2's amended theorem at a concrete input. -/
theorem C2_amended_tie_descending_witness :
    List.Pairwise (fun i j =>
      (hybridScores ceDf ceCos ceZ ceZ ceZ 0
          ((1 : ℚ) / (1 + 0 + 0 + 0 + 0)) ((0 : ℚ) / (1 + 0 + 0 + 0 + 0))
          ((0 : ℚ) / (1 + 0 + 0 + 0 + 0)) ((0 : ℚ) / (1 + 0 + 0 + 0 + 0))
          ((0 : ℚ) / (1 + 0 + 0 + 0 + 0))).getD i 0 =
      (hybridScores ceDf ceCos ceZ ceZ ceZ 0
          ((1 : ℚ) / (1 + 0 + 0 + 0 + 0)) ((0 : ℚ) / (1 + 0 + 0 + 0 + 0))
          ((0 : ℚ) / (1 + 0 + 0 + 0 + 0)) ((0 : ℚ) / (1 + 0 + 0 + 0 + 0))
          ((0 : ℚ) / (1 + 0 + 0 + 0 + 0))).getD j 0 → j < i) [2, 1] :=
  C2_amended_tie_descending "alpha" ceDf ceCos ceZ ceZ ceZ 10 1 0 0 0 0 0 [2, 1]
    (by decide) (by decide)

/-- C3 counterexample: on a query matching no title, `recommend` does not
raise — it returns a normal value, the not-found message string (which
does carry the original query). -/
theorem C3_counterexample :
    recommend "atlas" hobbitDf [[1]] [[1]] [[1]] [[1]] 10
        (45/100) (25/100) (15/100) (1/10) (1/20)
      = .ok (.message (noBooksMsg "atlas")) := by
  decide

/-- C3 amended: when the normalized query matches no title, the resolver
signals the failure by RETURNING the not-found message string carrying
the original query (not by raising an error). -/
theorem C3_amended_notfound_message (q : String) (df : List Item)
    (cos gen rat yr : List (List ℚ)) (n : Nat) (wt wg wr wy wc : ℚ)
    (hres : resolveIdx q df = .ok none) :
    recommend q df cos gen rat yr n wt wg wr wy wc
      = .ok (.message (noBooksMsg q)) := by
  unfold recommend
  rw [hres]

/-- Witness for C3's amended theorem at a concrete input. -/
theorem C3_amended_notfound_message_witness :
    recommend "atlas" hobbitDf [[1]] [[1]] [[1]] [[1]] 5 1 1 1 1 1
      = .ok (.message (noBooksMsg "atlas")) :=
  C3_amended_notfound_message "atlas" hobbitDf [[1]] [[1]] [[1]] [[1]] 5 1 1 1 1 1
    (by decide)

/-- C4: when at least `N` items in the full ranking survive the filters
(the survival test already excludes the anchor), the lazy collection loop
returns exactly `N` items — it keeps scanning the ranked order rather
than truncating before filtering. -/
theorem C4_filters_fill_n (df : List Item) (sel : Nat) (minR : ℚ)
    (gf : List String) (bigN : Nat) (h : List ℚ)
    (hN : 1 ≤ bigN)
    (hc : bigN ≤ ((simScoresSorted h).filter
        (fun x => keepItem df sel minR gf x.1)).length) :
    (recs df sel minR gf bigN (simScoresSorted h)).length = bigN := by
  unfold recs
  rw [recsAux_eq_take _ _ _ 0 (by omega), List.length_take]
  omega

/-- Witness for C4 at a concrete input. -/
theorem C4_filters_fill_n_witness :
    (recs gfDf 0 0 [] 2 (simScoresSorted [1, 1/2, 3/5])).length = 2 :=
  C4_filters_fill_n gfDf 0 0 [] 2 [1, 1/2, 3/5] (by decide) (by decide)

/-- C5: every item the filter loop returns has rating at least the
minimum, and, when the genre filter is non-empty, at least one selected
one-hot genre flag equal to 1. -/
theorem C5_filter_correct (df : List Item) (sel : Nat) (minR : ℚ)
    (gf : List String) (bigN : Nat) (ss : List (Nat × ℚ)) (i : Nat) (s : ℚ)
    (hmem : (i, s) ∈ recs df sel minR gf bigN ss) :
    minR ≤ (df.getD i dItem).avg_rating ∧
      (gf ≠ [] → ∃ g ∈ gf, flagOf (df.getD i dItem) g = 1) := by
  unfold recs at hmem
  have hk : keepItem df sel minR gf i = true :=
    mem_recsAux_keep _ bigN ss 0 (i, s) hmem
  unfold keepItem at hk
  simp only [Bool.and_eq_true, Bool.not_eq_true', decide_eq_false_iff_not,
    Bool.or_eq_true, List.any_eq_true, beq_iff_eq, List.isEmpty_iff] at hk
  obtain ⟨⟨-, hrat⟩, hgen⟩ := hk
  refine ⟨not_lt.mp hrat, fun hne => ?_⟩
  rcases hgen with he | ⟨g, hg, hfl⟩
  · exact absurd he hne
  · exact ⟨g, hg, hfl⟩

/-- Witness for C5 at a concrete input. -/
theorem C5_filter_correct_witness :
    (5 : ℚ)/2 ≤ (gfDf.getD 1 dItem).avg_rating ∧
      ((["fiction"] : List String) ≠ [] →
        ∃ g ∈ (["fiction"] : List String), flagOf (gfDf.getD 1 dItem) g = 1) :=
  C5_filter_correct gfDf 0 (5/2) ["fiction"] 2
    (simScoresSorted [1, 1/2, 3/5]) 1 (1/2) (by decide)

/-- C6: the anchor item never appears among the returned indices,
whatever the dataset, matrices, weights or `n`. -/
theorem C6_anchor_excluded (q : String) (df : List Item)
    (cos gen rat yr : List (List ℚ)) (n : Nat) (wt wg wr wy wc : ℚ)
    (idx : Nat) (l : List Nat)
    (hres : resolveIdx q df = .ok (some idx))
    (hout : recommend q df cos gen rat yr n wt wg wr wy wc = .ok (.result l)) :
    idx ∉ l := by
  unfold recommend at hout
  rw [hres] at hout
  dsimp only at hout
  by_cases hz : wt + wg + wr + wy + wc = 0
  · rw [if_pos hz] at hout
    cases hout
  · rw [if_neg hz] at hout
    simp only [Except.ok.injEq, RecOutput.result.injEq] at hout
    subst hout
    intro hmem
    have h2 := (List.mem_filter.mp (List.mem_of_mem_take hmem)).2
    simp at h2

/-- Witness for C6 at a concrete input. -/
theorem C6_anchor_excluded_witness : (0 : Nat) ∉ ([2, 1] : List Nat) :=
  C6_anchor_excluded "alpha" ceDf ceCos ceZ ceZ ceZ 10 1 0 0 0 0 0 [2, 1]
    (by decide) (by decide)

/-- C7: with all five weights zero the engine fails the request during
weight normalization (Python float division by zero — the configuration
error of the spec) instead of substituting defaults and ranking. -/
theorem C7_zero_weights_error (q : String) (df : List Item)
    (cos gen rat yr : List (List ℚ)) (n : Nat) (idx : Nat)
    (hres : resolveIdx q df = .ok (some idx)) :
    recommend q df cos gen rat yr n 0 0 0 0 0 = .error .zeroDivisionError := by
  unfold recommend
  rw [hres]
  dsimp only
  rw [if_pos (by norm_num)]

/-- Witness for C7 at a concrete input. -/
theorem C7_zero_weights_error_witness :
    recommend "alpha" ceDf ceCos ceZ ceZ ceZ 10 0 0 0 0 0
      = .error .zeroDivisionError :=
  C7_zero_weights_error "alpha" ceDf ceCos ceZ ceZ ceZ 10 0 (by decide)

/-- C10: the resolver interprets the normalized query as a regular
expression, not a literal substring — the query `T.e` resolves to the
title `The Hobbit` although `t.e` is not a literal substring of the
lower-cased title (the dot matches any character), and the invalid
pattern `(` makes the call raise Python's regex compile error instead of
returning a match or the not-found message. -/
theorem C10_regex_semantics :
    (resolveIdx "T.e" hobbitDf = .ok (some 0)
      ∧ substringOf (trimChars (lowerStr "T.e".data))
          (lowerStr "The Hobbit".data) = false)
    ∧ recommend "(" hobbitDf [[1]] [[1]] [[1]] [[1]] 10 1 0 0 0 0
      = .error (.regexError "missing ), unterminated subpattern") := by
  decide

end BookRec
